import Mathlib

/-!
Verification of `LandCover_by_Watershed.py` against its specification.

The script is a linear arcpy batch pipeline: load a two-column CSV remap
table, buffer watersheds, clip the NLCD raster, vectorize it, remap the
class labels through the CSV dictionary, summarize within watersheds,
join, materialize a dated output table and drop bookkeeping columns,
with a `KeyError` handler and a catch-all handler around the main block.

The embedding below mirrors the script:
* `buildClassMap` is the dict comprehension on `csv.reader` rows
  (line 62-64): `row[0]` / `row[1]` indexing raises `IndexError` on a
  row with fewer than two fields, later rows overwrite earlier keys.
* `remapAll` is the `UpdateCursor` loop (lines 108-111): each row is
  written back as `[old_class, class_map[old_class]]`; a missing key
  raises `KeyError`.
* The five external geoprocessing calls are opaque: the environment
  `Env` supplies either a result or the exception each call raises.
* `runScript` is the whole module: CSV loading happens before the
  `try:` block, the `except KeyError:` arm prints the fixed
  missing-mapping message, the bare `except:` arm formats a diagnostic
  from the traceback location, exception type name and message.
-/

namespace LandCoverWshed

/-- A Python exception value: its dynamic type name and its message. -/
structure PyExc where
  typeName : String
  message : String
deriving DecidableEq, Repr

/-- The `except KeyError:` arm catches exactly the KeyError type. -/
def isKeyError (e : PyExc) : Bool := e.typeName == "KeyError"

/-- One CSV record as produced by `csv.reader`: a list of fields. -/
abbrev Row := List String

/-- The in-memory dictionary `class_map` (association list; the head
entry for a key is its current binding). -/
abbrev ClassMap := List (String × String)

/-- Evaluate `row[0]`, `row[1]` for one CSV row: `IndexError` when the
row has fewer than two fields, extra fields are ignored. -/
def rowKV : Row → Except PyExc (String × String)
  | k :: v :: _ => .ok (k, v)
  | _ => .error ⟨"IndexError", "list index out of range"⟩

/-- Python dict assignment `m[k] = v`: the new binding shadows any
previous binding of `k`. -/
def dictInsert (m : ClassMap) (k v : String) : ClassMap :=
  (k, v) :: m.filter fun p => p.1 != k

/-- The dict comprehension `{row[0]: row[1] for row in reader}` starting
from the accumulator `m`, processing rows first to last. -/
def buildFrom (m : ClassMap) : List Row → Except PyExc ClassMap
  | [] => .ok m
  | r :: rs =>
    match rowKV r with
    | .error e => .error e
    | .ok kv => buildFrom (dictInsert m kv.1 kv.2) rs

/-- `class_map = {row[0]: row[1] for row in reader}` (line 64). -/
def buildClassMap (rows : List Row) : Except PyExc ClassMap :=
  buildFrom [] rows

/-- Lines 62-64 as a whole: `open` + `csv.reader` either deliver the
rows or raise (file missing / unreadable), then the comprehension runs. -/
def loadClassMap (csvRead : Except PyExc (List Row)) : Except PyExc ClassMap :=
  match csvRead with
  | .error e => .error e
  | .ok rows => buildClassMap rows

/-- Python dict subscript `m[k]`: `KeyError` when the key is absent. -/
def dictGet (m : ClassMap) (k : String) : Except PyExc String :=
  match m.lookup k with
  | some v => .ok v
  | none => .error ⟨"KeyError", k⟩

/-- One vectorized land-cover polygon row as seen by the cursor: the
original class label field and the added grouped-class field. -/
structure LCPoly where
  oldClass : String
  newClass : String
deriving DecidableEq, Repr

/-- One iteration of the update-cursor loop (lines 109-111):
`new_class = class_map[old_class]; ucurs.updateRow([old_class, new_class])`. -/
def remapPoly (m : ClassMap) (p : LCPoly) : Except PyExc LCPoly :=
  match dictGet m p.oldClass with
  | .error e => .error e
  | .ok nc => .ok ⟨p.oldClass, nc⟩

/-- The whole update-cursor loop over the polygon rows (lines 108-111). -/
def remapAll (m : ClassMap) : List LCPoly → Except PyExc (List LCPoly)
  | [] => .ok []
  | p :: ps =>
    match remapPoly m p with
    | .error e => .error e
    | .ok q =>
      match remapAll m ps with
      | .error e => .error e
      | .ok qs => .ok (q :: qs)

/-- One row of the per-watershed statistics output: the watershed join
id, the grouped class, summed area (square feet) and percent share. -/
structure StatRow where
  joinId : Nat
  grpClass : String
  area : ℚ
  percent : ℚ
deriving DecidableEq, Repr

/-- Modelled from the spec: intersection pieces with nonzero area that
the external SummarizeWithin engine sees for watershed `w` — the
polygons are indexed, `inter w i` is the overlap area of polygon `i`
with watershed `w` (section 4.6 treats the geometry as a black box). -/
def presentPieces (inter : Nat → Nat → ℚ) (polys : List LCPoly) (w : Nat) :
    List (Nat × LCPoly) :=
  polys.enum.filter fun x => decide (inter w x.1 ≠ 0)

/-- Modelled from the spec: the distinct grouped classes present in
watershed `w` (section 4.6: "every distinct grouped class present"). -/
def groupClasses (inter : Nat → Nat → ℚ) (polys : List LCPoly) (w : Nat) :
    List String :=
  ((presentPieces inter polys w).map fun x => x.2.newClass).dedup

/-- Modelled from the spec: total summarized area of watershed `w`. -/
def totalArea (inter : Nat → Nat → ℚ) (polys : List LCPoly) (w : Nat) : ℚ :=
  (polys.enum.map fun x => inter w x.1).sum

/-- Modelled from the spec: summed overlap area of grouped class `c`
within watershed `w`. -/
def classArea (inter : Nat → Nat → ℚ) (polys : List LCPoly) (w : Nat)
    (c : String) : ℚ :=
  ((polys.enum.filter fun x => x.2.newClass == c).map fun x => inter w x.1).sum

/-- Modelled from the spec: the SummarizeWithin group-table rows for one
watershed (section 4.6). `keep_all_polygons=KEEP_ALL`: a watershed with
no land-cover overlap still gets one row, with zero area and percent. -/
def wshedRows (inter : Nat → Nat → ℚ) (polys : List LCPoly) (w : Nat) :
    List StatRow :=
  if groupClasses inter polys w = [] then
    [⟨w, "", 0, 0⟩]
  else
    (groupClasses inter polys w).map fun c =>
      ⟨w, c, classArea inter polys w c,
        if totalArea inter polys w = 0 then 0
        else 100 * classArea inter polys w c / totalArea inter polys w⟩

/-- Modelled from the spec: arcpy `SummarizeWithin` (line 117, external
call not in src/) producing the grouped statistics rows, one block per
input watershed, keep-all policy. -/
def summarizeGroups (inter : Nat → Nat → ℚ) (wsheds : List Nat)
    (polys : List LCPoly) : List StatRow :=
  wsheds.flatMap (wshedRows inter polys)

/-- The materialized final output table: its name in the geodatabase,
its statistics rows, and its field (column) list after cleanup. -/
structure FinalTable where
  name : String
  rows : List StatRow
  fields : List String
deriving DecidableEq, Repr

/-- How one invocation of the script terminates: silently successful,
stopped with one `arcpy.AddError` message, or killed by an exception
that no handler catches (raised outside the `try:` block). -/
inductive Outcome where
  | success : Outcome
  | failed : String → Outcome
  | unhandled : PyExc → Outcome
deriving DecidableEq, Repr

/-- What a run leaves behind: artifacts created in the output
geodatabase (in creation order), the terminal outcome, and the final
statistics table when it was materialized. -/
structure RunResult where
  created : List String
  outcome : Outcome
  finalTable : Option FinalTable
deriving DecidableEq, Repr

/-- Environment of one invocation: the CSV read result, the behavior of
each opaque external geoprocessing call (`none` = the call succeeds,
`some e` = it raises `e`), the vectorization output, the geometry
oracle, the `arcpy.da.Describe` record of the watershed input, the
field list of the joined table, and the run date string. -/
structure Env where
  csvRead : Except PyExc (List Row)
  bufferExc : Option PyExc
  clipExc : Option PyExc
  r2p : Except PyExc (List String)
  addFieldExc : Option PyExc
  wsheds : List Nat
  inter : Nat → Nat → ℚ
  summarizeExc : Option PyExc
  addJoinExc : Option PyExc
  describeRec : List (String × String)
  joinedFields : List String
  fc2fcExc : Option PyExc
  deleteFieldExc : Option PyExc
  runDate : String

/-- Name of the clipped raster artifact (line 85). -/
def clipTbl : String := "Temp_NLCD_WShed_Clip"

/-- Name of the vectorized land-cover artifact (line 94). -/
def polyTbl : String := "Temp_NLCD_Polygon"

/-- Name of the watershed summary feature class (line 120). -/
def sumTbl : String := "Temp_Watershed_Summary"

/-- Name of the summary statistics table (line 128). -/
def statTbl : String := "Temp_Watershed_Stat_Table"

/-- The drop list passed to `DeleteField` (lines 156-158). -/
def dropFields : List String :=
  ["sum_Area_SQUAREFEET", "Polygon_Count", "Join_ID", "OBJECTID",
   "Join_ID_1", "sum_Area_SQUAREFEET_1", "Polygon_Count_1"]

/-- The fixed message of the `except KeyError:` arm (lines 162-163),
including the source's spelling of "reclassficiation". -/
def missingMsg : String :=
  "An NLCD class in the data was not found in the CSV, so reclassficiation could not occur. Ensure CSV is up to date."

/-- The catch-all arm's formatted diagnostic (line 167): traceback
location, exception type name, exception message. -/
def mkErrMsg (loc ty msg : String) : String :=
  "Traceback Info:\n" ++ loc ++ "\n" ++ ty ++ ": " ++ msg

/-- The deterministic final table name (line 150). -/
def finalName (base date : String) : String :=
  "Watershed_" ++ base ++ "_Statistics_" ++ date

/-- Left-pad a decimal string with zeros to width `k`. -/
def padZero (k : Nat) (s : String) : String :=
  String.mk (List.replicate (k - s.length) '0') ++ s

/-- `datetime.today().strftime(yyyymmdd-format)` (line 59) for the run
date `y`-`m`-`d`. -/
def fmtYYYYMMDD (y m d : Nat) : String :=
  padZero 4 (toString y) ++ padZero 2 (toString m) ++ padZero 2 (toString d)

/-- Traceback locations of the statements inside the `try:` block. -/
def locBuffer : String := "line 77, in Buffer"

/-- Traceback location of the raster clip call. -/
def locClip : String := "line 82, in Clip"

/-- Traceback location of the raster-to-polygon call. -/
def locR2P : String := "line 92, in RasterToPolygon"

/-- Traceback location of the AddField call. -/
def locAddField : String := "line 101, in AddField"

/-- Traceback location of the update-cursor remap loop. -/
def locRemap : String := "line 108, in UpdateCursor"

/-- Traceback location of the SummarizeWithin call. -/
def locSummarize : String := "line 117, in SummarizeWithin"

/-- Traceback location of the AddJoin call. -/
def locAddJoin : String := "line 134, in AddJoin"

/-- Traceback location of the Describe subscript. -/
def locDescribe : String := "line 146, in Describe"

/-- Traceback location of the FeatureClassToFeatureClass call. -/
def locFC2FC : String := "line 147, in FeatureClassToFeatureClass"

/-- Traceback location of the DeleteField call. -/
def locDeleteField : String := "line 154, in DeleteField"

/-- The `try:` block (lines 74-159), with the statements in source
order: Buffer, Clip, RasterToPolygon, AddField, the remap loop,
SummarizeWithin, AddJoin, the Describe subscript, the materializing
copy under the dated name, and DeleteField. Returns the artifacts
created so far and either the final table or the escaping exception
paired with its traceback location. -/
def tryBody (env : Env) (cmap : ClassMap) :
    List String × Except (String × PyExc) FinalTable :=
  match env.bufferExc with
  | some e => ([], .error (locBuffer, e))
  | none =>
    match env.clipExc with
    | some e => ([], .error (locClip, e))
    | none =>
      match env.r2p with
      | .error e => ([clipTbl], .error (locR2P, e))
      | .ok labels =>
        match env.addFieldExc with
        | some e => ([clipTbl, polyTbl], .error (locAddField, e))
        | none =>
          match remapAll cmap (labels.map fun c => LCPoly.mk c "") with
          | .error e => ([clipTbl, polyTbl], .error (locRemap, e))
          | .ok rpolys =>
            match env.summarizeExc with
            | some e => ([clipTbl, polyTbl], .error (locSummarize, e))
            | none =>
              match env.addJoinExc with
              | some e =>
                ([clipTbl, polyTbl, sumTbl, statTbl], .error (locAddJoin, e))
              | none =>
                match dictGet env.describeRec "baseName" with
                | .error e =>
                  ([clipTbl, polyTbl, sumTbl, statTbl], .error (locDescribe, e))
                | .ok base =>
                  match env.fc2fcExc with
                  | some e =>
                    ([clipTbl, polyTbl, sumTbl, statTbl], .error (locFC2FC, e))
                  | none =>
                    match env.deleteFieldExc with
                    | some e =>
                      ([clipTbl, polyTbl, sumTbl, statTbl,
                        finalName base env.runDate],
                       .error (locDeleteField, e))
                    | none =>
                      ([clipTbl, polyTbl, sumTbl, statTbl,
                        finalName base env.runDate],
                       .ok ⟨finalName base env.runDate,
                            summarizeGroups env.inter env.wsheds rpolys,
                            env.joinedFields.filter fun f =>
                              decide (f ∉ dropFields)⟩)

/-- The whole module run: the CSV is opened and parsed before the
`try:` block (lines 62-64), so a failure there escapes unhandled; then
the `try:` body runs, a `KeyError` is answered with the fixed
missing-mapping message, and any other exception with the formatted
diagnostic (lines 161-168). -/
def runScript (env : Env) : RunResult :=
  match loadClassMap env.csvRead with
  | .error e => ⟨[], .unhandled e, none⟩
  | .ok cmap =>
    match tryBody env cmap with
    | (cr, .ok tbl) => ⟨cr, .success, some tbl⟩
    | (cr, .error (loc, e)) =>
      if isKeyError e then ⟨cr, .failed missingMsg, none⟩
      else ⟨cr, .failed (mkErrMsg loc e.typeName e.message), none⟩

/-- Substring-as-`List Char` containment: `t` occurs inside `s`. -/
def strContains (s t : String) : Prop :=
  ∃ a b, s.data = a ++ t.data ++ b

/-! Dictionary lemmas. -/

theorem lookup_filter_ne (m : ClassMap) (k k' : String) (h : k' ≠ k) :
    (m.filter fun p => p.1 != k).lookup k' = m.lookup k' := by
  induction m with
  | nil => rfl
  | cons a t ih =>
    by_cases ha : a.1 = k
    · have : (a.1 != k) = false := by simp [ha]
      simp only [List.filter_cons, this, List.lookup]
      have : (k' == a.1) = false := by simp [ha, h]
      simp [List.lookup, this, ih]
    · have : (a.1 != k) = true := by simp [ha]
      simp only [List.filter_cons, this, List.lookup]
      by_cases hk : k' = a.1
      · simp [List.lookup, hk]
      · have : (k' == a.1) = false := by simp [hk]
        simp [List.lookup, this, ih]

theorem lookup_dictInsert_self (m : ClassMap) (k v : String) :
    (dictInsert m k v).lookup k = some v := by
  simp [dictInsert, List.lookup]

theorem lookup_dictInsert_ne (m : ClassMap) (k v k' : String) (h : k' ≠ k) :
    (dictInsert m k v).lookup k' = m.lookup k' := by
  have : (k' == k) = false := by simp [h]
  simp [dictInsert, List.lookup, this, lookup_filter_ne m k k' h]

/-- The keys a list of CSV rows binds (first field of each row). -/
def rowKeys (rows : List Row) : List String := rows.filterMap List.head?

theorem buildFrom_lookup_preserved (rows : List Row) :
    ∀ (m₀ m : ClassMap) (k : String), buildFrom m₀ rows = .ok m →
      k ∉ rowKeys rows → m.lookup k = m₀.lookup k := by
  induction rows with
  | nil =>
    intro m₀ m k h _
    simp only [buildFrom] at h
    cases h
    rfl
  | cons r rs ih =>
    intro m₀ m k h hk
    match r with
    | [] => simp [buildFrom, rowKV] at h
    | [x] => simp [buildFrom, rowKV] at h
    | k₀ :: v₀ :: rest =>
      simp only [buildFrom, rowKV] at h
      have hk₀ : k ≠ k₀ := by
        intro he
        exact hk (by simp [rowKeys, he])
      have hks : k ∉ rowKeys rs := by
        intro hm
        exact hk (by simp [rowKeys] at hm ⊢; right; exact hm)
      rw [ih _ _ _ h hks, lookup_dictInsert_ne _ _ _ _ hk₀]

theorem buildFrom_mem_lookup (rows : List Row) :
    ∀ (m₀ m : ClassMap), buildFrom m₀ rows = .ok m → (rowKeys rows).Nodup →
      ∀ k v rest, (k :: v :: rest) ∈ rows → m.lookup k = some v := by
  induction rows with
  | nil => intro _ _ _ _ _ _ _ hm; cases hm
  | cons r rs ih =>
    intro m₀ m h hnd k v rest hm
    match r with
    | [] => simp [buildFrom, rowKV] at h
    | [x] => simp [buildFrom, rowKV] at h
    | k₀ :: v₀ :: rest₀ =>
      simp only [buildFrom, rowKV] at h
      have hkeys : rowKeys ((k₀ :: v₀ :: rest₀) :: rs) = k₀ :: rowKeys rs := by
        simp [rowKeys]
      rw [hkeys] at hnd
      rcases List.mem_cons.mp hm with he | hmem
      · obtain ⟨hk, hv, -⟩ : k₀ = k ∧ v₀ = v ∧ rest₀ = rest := by
          injection he with h1 h2
          injection h2 with h2 h3
          exact ⟨h1.symm, h2.symm, h3.symm⟩
        subst hk hv
        have hnot : k₀ ∉ rowKeys rs := (List.nodup_cons.mp hnd).1
        rw [buildFrom_lookup_preserved rs _ _ _ h hnot,
          lookup_dictInsert_self]
      · exact ih _ _ h (List.nodup_cons.mp hnd).2 k v rest hmem

theorem buildFrom_error_iff (rows : List Row) :
    ∀ m₀ : ClassMap, (∃ e, buildFrom m₀ rows = .error e) ↔
      ∃ r ∈ rows, r.length < 2 := by
  induction rows with
  | nil =>
    intro m₀
    constructor
    · rintro ⟨e, h⟩; simp [buildFrom] at h
    · rintro ⟨r, hr, -⟩; cases hr
  | cons r rs ih =>
    intro m₀
    match r with
    | [] =>
      constructor
      · intro _; exact ⟨[], List.mem_cons_self _ _, by decide⟩
      · intro _
        exact ⟨⟨"IndexError", "list index out of range"⟩,
          by simp [buildFrom, rowKV]⟩
    | [x] =>
      constructor
      · intro _; exact ⟨[x], List.mem_cons_self _ _, by simp⟩
      · intro _
        exact ⟨⟨"IndexError", "list index out of range"⟩,
          by simp [buildFrom, rowKV]⟩
    | k₀ :: v₀ :: rest₀ =>
      simp only [buildFrom, rowKV]
      constructor
      · rintro ⟨e, h⟩
        obtain ⟨r', hr', hl⟩ := (ih _).mp ⟨e, h⟩
        exact ⟨r', List.mem_cons_of_mem _ hr', hl⟩
      · rintro ⟨r', hr', hl⟩
        rcases List.mem_cons.mp hr' with he | hmem
        · subst he; simp at hl; omega
        · exact (ih _).mpr ⟨r', hmem, hl⟩

/-! Remap lemmas. -/

theorem dictGet_ok_iff (m : ClassMap) (k v : String) :
    dictGet m k = .ok v ↔ m.lookup k = some v := by
  unfold dictGet
  cases m.lookup k <;> simp

theorem remapPoly_ok_oldClass (m : ClassMap) (p q : LCPoly)
    (h : remapPoly m p = .ok q) : q.oldClass = p.oldClass := by
  unfold remapPoly at h
  cases hg : dictGet m p.oldClass <;> rw [hg] at h
  · cases h
  · cases h; rfl

theorem remapAll_ok_oldClasses (m : ClassMap) :
    ∀ ps qs : List LCPoly, remapAll m ps = .ok qs →
      qs.map LCPoly.oldClass = ps.map LCPoly.oldClass := by
  intro ps
  induction ps with
  | nil => intro qs h; cases h; rfl
  | cons p pt ih =>
    intro qs h
    unfold remapAll at h
    cases hp : remapPoly m p <;> rw [hp] at h
    · cases h
    · cases hr : remapAll m pt <;> rw [hr] at h
      · cases h
      · cases h
        simp [ih _ hr, remapPoly_ok_oldClass m p _ hp]

theorem remapAll_missing_key (m : ClassMap) :
    ∀ (ps : List LCPoly) (p : LCPoly), p ∈ ps → m.lookup p.oldClass = none →
      ∃ k, remapAll m ps = .error ⟨"KeyError", k⟩ ∧ m.lookup k = none := by
  intro ps
  induction ps with
  | nil => intro _ hm; cases hm
  | cons q qt ih =>
    intro p hm hnone
    by_cases hq : m.lookup q.oldClass = none
    · refine ⟨q.oldClass, ?_, hq⟩
      simp [remapAll, remapPoly, dictGet, hq]
    · rcases ho : m.lookup q.oldClass with - | v
      · exact absurd ho hq
      · have hpq : p ∈ qt := by
          rcases List.mem_cons.mp hm with he | hmem
          · subst he; exact absurd ho (by rw [hnone]; simp)
          · exact hmem
        obtain ⟨k, hk, hkn⟩ := ih p hpq hnone
        exact ⟨k, by simp [remapAll, remapPoly, dictGet, ho, hk], hkn⟩

/-! String-shape lemmas: the two diagnostic messages are distinct, and
the formatted diagnostic embeds its three components. -/

theorem mkErrMsg_ne_missingMsg (loc ty msg : String) :
    mkErrMsg loc ty msg ≠ missingMsg := by
  intro h
  have h2 := congrArg (fun s => s.data.head?) h
  simp only [mkErrMsg, missingMsg, String.data_append] at h2
  simp only [List.cons_append, List.head?_cons] at h2
  exact absurd h2 (by decide)

theorem mkErrMsg_contains (loc ty msg : String) :
    strContains (mkErrMsg loc ty msg) loc ∧
    strContains (mkErrMsg loc ty msg) ty ∧
    strContains (mkErrMsg loc ty msg) msg := by
  refine ⟨⟨("Traceback Info:\n" : String).data,
      ("\n" : String).data ++ ty.data ++ (": " : String).data ++ msg.data, ?_⟩,
    ⟨("Traceback Info:\n" : String).data ++ loc.data ++ ("\n" : String).data,
      (": " : String).data ++ msg.data, ?_⟩,
    ⟨("Traceback Info:\n" : String).data ++ loc.data ++ ("\n" : String).data
        ++ ty.data ++ (": " : String).data, [], ?_⟩⟩ <;>
    simp [mkErrMsg, String.data_append]

theorem finalName_data_head (b d : String) :
    (finalName b d).data.head? = some 'W' := by
  simp only [finalName, String.data_append]
  simp [List.cons_append]

theorem finalName_ne_of_head (b d t : String)
    (ht : t.data.head? ≠ some 'W') : finalName b d ≠ t := by
  intro h
  exact ht (h ▸ finalName_data_head b d)

/-! Lemmas about the `try:` body and the whole run. -/

theorem tryBody_success (env : Env) (cmap : ClassMap) (labels : List String)
    (rpolys : List LCPoly) (base : String)
    (hb : env.bufferExc = none) (hc : env.clipExc = none)
    (hr : env.r2p = .ok labels) (ha : env.addFieldExc = none)
    (hm : remapAll cmap (labels.map fun c => LCPoly.mk c "") = .ok rpolys)
    (hs : env.summarizeExc = none) (hj : env.addJoinExc = none)
    (hd : env.describeRec.lookup "baseName" = some base)
    (hf : env.fc2fcExc = none) (hdel : env.deleteFieldExc = none) :
    tryBody env cmap =
      ([clipTbl, polyTbl, sumTbl, statTbl, finalName base env.runDate],
       .ok ⟨finalName base env.runDate,
            summarizeGroups env.inter env.wsheds rpolys,
            env.joinedFields.filter fun f => decide (f ∉ dropFields)⟩) := by
  simp only [tryBody, hb, hc, hr, ha, hs, hj, hf, hdel, hm, dictGet, hd]

theorem tryBody_ok_fields (env : Env) (cmap : ClassMap) (cr : List String)
    (tbl : FinalTable) (h : tryBody env cmap = (cr, .ok tbl)) :
    tbl.fields = env.joinedFields.filter fun f => decide (f ∉ dropFields) := by
  unfold tryBody at h
  repeat' split at h <;> try simp_all
  cases h.2
  rfl

theorem runScript_finalTable_some (env : Env) (tbl : FinalTable)
    (h : (runScript env).finalTable = some tbl) :
    ∃ cmap cr, loadClassMap env.csvRead = .ok cmap ∧
      tryBody env cmap = (cr, .ok tbl) := by
  unfold runScript at h
  cases hl : loadClassMap env.csvRead with
  | error e => simp [hl] at h
  | ok cmap =>
    simp only [hl] at h
    rcases ht : tryBody env cmap with ⟨cr, res⟩
    simp only [ht] at h
    cases res with
    | ok t =>
      have ht2 : t = tbl := by simpa using h
      exact ⟨cmap, cr, rfl, ht2 ▸ ht⟩
    | error le =>
      rcases le with ⟨loc, e⟩
      by_cases hke : isKeyError e <;> simp [hke] at h

theorem runScript_eq_of_ok (env : Env) (cmap : ClassMap) (cr : List String)
    (tbl : FinalTable) (hl : loadClassMap env.csvRead = .ok cmap)
    (ht : tryBody env cmap = (cr, .ok tbl)) :
    runScript env = ⟨cr, .success, some tbl⟩ := by
  simp only [runScript, hl, ht]

theorem runScript_eq_of_error (env : Env) (cmap : ClassMap) (cr : List String)
    (loc : String) (e : PyExc) (hl : loadClassMap env.csvRead = .ok cmap)
    (ht : tryBody env cmap = (cr, .error (loc, e))) :
    runScript env =
      ⟨cr,
       if isKeyError e then .failed missingMsg
       else .failed (mkErrMsg loc e.typeName e.message),
       none⟩ := by
  simp only [runScript, hl, ht]
  by_cases hke : isKeyError e <;> simp [hke]

/-- Modelled from the spec: the keep-all policy of section 4.6 — every
input watershed owns at least one statistics row, and a watershed with
no land-cover overlap owns the zero-area, zero-percent row. -/
theorem summarize_keep_all (inter : Nat → Nat → ℚ) (wsheds : List Nat)
    (polys : List LCPoly) :
    ∀ w ∈ wsheds, ∃ row ∈ summarizeGroups inter wsheds polys,
      row.joinId = w ∧
      ((∀ i, inter w i = 0) → row.area = 0 ∧ row.percent = 0) := by
  intro w hw
  have hsub : ∃ row ∈ wshedRows inter polys w, row.joinId = w ∧
      ((∀ i, inter w i = 0) → row.area = 0 ∧ row.percent = 0) := by
    by_cases hcl : groupClasses inter polys w = []
    · refine ⟨⟨w, "", 0, 0⟩, ?_, rfl, fun _ => ⟨rfl, rfl⟩⟩
      simp [wshedRows, hcl]
    · obtain ⟨c, hc⟩ := List.exists_mem_of_ne_nil _ hcl
      refine ⟨⟨w, c, classArea inter polys w c,
          if totalArea inter polys w = 0 then 0
          else 100 * classArea inter polys w c / totalArea inter polys w⟩,
        ?_, rfl, ?_⟩
      · simp only [wshedRows, if_neg hcl]
        exact List.mem_map.mpr ⟨c, hc, rfl⟩
      · intro hz
        exfalso
        apply hcl
        have hp : presentPieces inter polys w = [] := by
          apply List.filter_eq_nil_iff.mpr
          intro x _
          simp [hz x.1]
        simp [groupClasses, hp]
  obtain ⟨row, hr, hp⟩ := hsub
  exact ⟨row, List.mem_flatMap.mpr ⟨w, hw, hr⟩, hp⟩

/-! Claim theorems. -/

/-- Claim C3, amended: for every row (original_label, grouped_label) of
the mapping CSV whose original label is not repeated by another row
(keys pairwise distinct), loading the mapping table and then looking up
original_label returns exactly that row's grouped_label. (As stated the
claim fails when a later row repeats a key: the dict comprehension lets
the last row win.) -/
theorem c3_lookup_returns_grouped (rows : List Row) (m : ClassMap)
    (h : buildClassMap rows = .ok m) (hnd : (rowKeys rows).Nodup) :
    ∀ k v rest, (k :: v :: rest) ∈ rows → m.lookup k = some v :=
  buildFrom_mem_lookup rows [] m h hnd

/-- Claim C3, counterexample: with two rows sharing the original label
"41", the loaded table maps "41" to the second row's grouped label, not
the first row's, so the claim as stated fails for the first row. -/
theorem c3_counterexample :
    buildClassMap [["41", "Forest"], ["41", "Wetland"]] =
      .ok [("41", "Wetland")] ∧
    List.lookup "41" [("41", "Wetland")] = some "Wetland" ∧
    some "Wetland" ≠ some "Forest" :=
  ⟨rfl, rfl, by decide⟩

/-- Claim C3, witness: a two-row table with distinct keys, looked up at
the first row's key. -/
theorem c3_witness :
    List.lookup "41" [("21", "Developed"), ("41", "Forest")] =
      some "Forest" :=
  c3_lookup_returns_grouped [["41", "Forest"], ["21", "Developed"]]
    [("21", "Developed"), ("41", "Forest")] rfl (by decide)
    "41" "Forest" [] (by decide)

/-- Claim C4, amended: the mapping-table loader fails exactly when the
CSV file is missing or unreadable, or some row has FEWER than two
fields. (As stated the claim fails: a row with more than two fields
does not cause failure — `row[0]`/`row[1]` ignore the extra fields.) -/
theorem c4_loader_failure_iff :
    (∀ e, loadClassMap (.error e) = .error e) ∧
    ∀ rows : List Row,
      (∃ e, loadClassMap (.ok rows) = .error e) ↔
        ∃ r ∈ rows, r.length < 2 :=
  ⟨fun _ => rfl, fun rows => buildFrom_error_iff rows []⟩

/-- Claim C4, counterexample: a row with three fields is accepted — the
loader succeeds and silently keeps only the first two fields, where the
claim says it must fail. -/
theorem c4_counterexample :
    loadClassMap (.ok [["41", "Forest", "extra"]]) =
      .ok [("41", "Forest")] := rfl

/-- Claim C4, witness: a one-field row does make the loader fail. -/
theorem c4_witness :
    ∃ e, loadClassMap (.ok [["41"]]) = .error e :=
  (c4_loader_failure_iff.2 [["41"]]).mpr ⟨["41"], by decide, by decide⟩

/-- Claim C9: the mapping CSV is opened and parsed before the `try:`
wrapper begins (lines 62-64 precede line 74), so a missing or
unreadable CSV terminates the run with an unhandled exception, created
no artifacts, and emits neither of the two `AddError` diagnostics. -/
theorem c9_csv_failure_unhandled (env : Env) (e : PyExc)
    (h : env.csvRead = .error e) :
    runScript env = ⟨[], .unhandled e, none⟩ ∧
    ∀ s, (runScript env).outcome ≠ .failed s := by
  have hl : loadClassMap env.csvRead = .error e := by
    rw [h]
    rfl
  have hrun : runScript env = ⟨[], .unhandled e, none⟩ := by
    simp only [runScript, hl]
  refine ⟨hrun, fun s hs => ?_⟩
  rw [hrun] at hs
  simp at hs

/-- Environment with a missing mapping CSV (the `open` call raises). -/
def envMissingCsv : Env :=
  ⟨.error ⟨"FileNotFoundError", "No such file or directory"⟩, none, none,
   .ok [], none, [], fun _ _ => 0, none, none, [], [], none, none,
   "20210908"⟩

/-- Claim C9, witness: a concrete run whose CSV read raises. -/
theorem c9_witness :
    runScript envMissingCsv =
      ⟨[], .unhandled ⟨"FileNotFoundError", "No such file or directory"⟩,
       none⟩ :=
  (c9_csv_failure_unhandled envMissingCsv
    ⟨"FileNotFoundError", "No such file or directory"⟩ rfl).1

/-- Claim C10: the remap loop writes only the grouped-class attribute —
the cursor writes back `[old_class, new_class]` where `old_class` is
the value just read, so the original class label of every updated row
is unchanged, row by row and over the whole pass. -/
theorem c10_remap_preserves_old (m : ClassMap) (ps qs : List LCPoly)
    (h : remapAll m ps = .ok qs) :
    qs.map LCPoly.oldClass = ps.map LCPoly.oldClass ∧
    ∀ p q, remapPoly m p = .ok q → q.oldClass = p.oldClass :=
  ⟨remapAll_ok_oldClasses m ps qs h,
   fun p q hq => remapPoly_ok_oldClass m p q hq⟩

/-- Claim C10, witness: one polygon remapped, original label intact. -/
theorem c10_witness :
    [LCPoly.mk "41" "Forest"].map LCPoly.oldClass =
      [LCPoly.mk "41" "stale"].map LCPoly.oldClass :=
  (c10_remap_preserves_old [("41", "Forest")] [LCPoly.mk "41" "stale"]
    [LCPoly.mk "41" "Forest"] rfl).1

/-- Claim C1: if the mapping CSV omits an original class label that
occurs in the clipped land-cover data, the run stops in the remap step
with the fixed missing-mapping error message, and the dated final
output table `Watershed_<basename>_Statistics_<date>` is never
created (only the clip and polygon intermediates exist). -/
theorem c1_missing_label_aborts (env : Env) (cmap : ClassMap)
    (labels : List String) (l : String)
    (hl : loadClassMap env.csvRead = .ok cmap)
    (hb : env.bufferExc = none) (hc : env.clipExc = none)
    (hr : env.r2p = .ok labels) (ha : env.addFieldExc = none)
    (hmem : l ∈ labels) (hmiss : cmap.lookup l = none) :
    (runScript env).outcome = .failed missingMsg ∧
    (runScript env).finalTable = none ∧
    ∀ b d, finalName b d ∉ (runScript env).created := by
  obtain ⟨k, hk, -⟩ := remapAll_missing_key cmap
    (labels.map fun c => LCPoly.mk c "") (LCPoly.mk l "")
    (List.mem_map.mpr ⟨l, hmem, rfl⟩) hmiss
  have ht : tryBody env cmap =
      ([clipTbl, polyTbl], .error (locRemap, ⟨"KeyError", k⟩)) := by
    simp only [tryBody, hb, hc, hr, ha, hk]
  have hrun := runScript_eq_of_error env cmap _ _ _ hl ht
  simp only [isKeyError, beq_self_eq_true, if_true] at hrun
  refine ⟨by rw [hrun], by rw [hrun], fun b d hmm => ?_⟩
  rw [hrun] at hmm
  simp only [List.mem_cons, List.not_mem_nil, or_false] at hmm
  rcases hmm with h1 | h1
  · exact finalName_ne_of_head b d clipTbl (by decide) h1
  · exact finalName_ne_of_head b d polyTbl (by decide) h1

/-- Environment whose land-cover data holds the class "99" that the
mapping CSV does not cover. -/
def envC1 : Env :=
  ⟨.ok [["41", "Forest"]], none, none, .ok ["41", "99"], none, [1],
   fun _ _ => 0, none, none, [("baseName", "Sub1")], [], none, none,
   "20210908"⟩

/-- Claim C1, witness: the unmapped class "99" stops the concrete run
with the missing-mapping message and no final table. -/
theorem c1_witness :
    (runScript envC1).outcome = .failed missingMsg ∧
    (runScript envC1).finalTable = none :=
  ⟨(c1_missing_label_aborts envC1 [("41", "Forest")] ["41", "99"] "99"
      rfl rfl rfl rfl rfl (by decide) rfl).1,
   (c1_missing_label_aborts envC1 [("41", "Forest")] ["41", "99"] "99"
      rfl rfl rfl rfl rfl (by decide) rfl).2.1⟩

/-- Claim C2, amended: the fixed missing-mapping message is emitted
when and only when a `KeyError` escapes the `try:` block — the remap
lookup is one source, but `except KeyError:` also catches any other
`KeyError` raised in steps 2-7, such as the `Describe(...)` record
subscript on line 146, which then yields the very same message. -/
theorem c2_missing_msg_iff_keyerror (env : Env) (cmap : ClassMap)
    (hl : loadClassMap env.csvRead = .ok cmap) :
    (runScript env).outcome = .failed missingMsg ↔
      ∃ (loc : String) (e : PyExc), (tryBody env cmap).2 = .error (loc, e) ∧
        isKeyError e = true := by
  rcases ht : tryBody env cmap with ⟨cr, res⟩
  cases res with
  | ok t =>
    rw [runScript_eq_of_ok env cmap cr t hl ht]
    simp
  | error le =>
    rcases le with ⟨loc, e⟩
    rw [runScript_eq_of_error env cmap cr loc e hl ht]
    by_cases hke : isKeyError e
    · simp only [if_pos hke]
      constructor
      · intro _
        exact ⟨loc, e, rfl, hke⟩
      · intro _
        trivial
    · simp only [if_neg hke]
      constructor
      · intro hcontra
        have h2 : mkErrMsg loc e.typeName e.message = missingMsg := by
          have h3 : Outcome.failed (mkErrMsg loc e.typeName e.message) =
              Outcome.failed missingMsg := hcontra
          exact Outcome.failed.inj h3
        exact absurd h2 (mkErrMsg_ne_missingMsg _ _ _)
      · rintro ⟨loc', e', he, hke'⟩
        exfalso
        have hp : (loc, e) = (loc', e') := by
          have h2 : (Except.error (loc, e) :
              Except (String × PyExc) FinalTable) = .error (loc', e') := he
          exact Except.error.inj h2
        cases hp
        exact hke hke'

/-- Environment where every class is mapped but the watershed layer's
describe record lacks the `baseName` entry, so line 146 raises
`KeyError` after a fully successful reclassification. -/
def envC2 : Env :=
  ⟨.ok [["41", "Forest"]], none, none, .ok ["41"], none, [1],
   fun _ _ => 1, none, none, [], ["F1"], none, none, "20210908"⟩

/-- Claim C2, counterexample: the missing-mapping message is emitted by
a run in which the reclassification lookup never failed (the remap of
every polygon succeeded); the `KeyError` came from the `baseName`
subscript instead. This refutes the "only when" direction as stated. -/
theorem c2_counterexample :
    (runScript envC2).outcome = .failed missingMsg ∧
    remapAll [("41", "Forest")] [LCPoly.mk "41" ""] =
      .ok [LCPoly.mk "41" "Forest"] :=
  ⟨rfl, rfl⟩

/-- Environment whose land-cover data holds the unmapped class "99". -/
def envC2w : Env :=
  ⟨.ok [["41", "Forest"]], none, none, .ok ["99"], none, [1],
   fun _ _ => 0, none, none, [("baseName", "Sub1")], [], none, none,
   "20210908"⟩

/-- Claim C2, witness: the amended equivalence applied to a run whose
remap step raises the `KeyError`. -/
theorem c2_witness :
    (runScript envC2w).outcome = .failed missingMsg :=
  (c2_missing_msg_iff_keyerror envC2w [("41", "Forest")] rfl).mpr
    ⟨locRemap, ⟨"KeyError", "99"⟩, rfl, rfl⟩

/-- Claim C5, amended: every non-`KeyError` exception escaping steps
2-7 is reported as the single formatted diagnostic embedding the
originating source location, the exception type name and the exception
message; and every run whose mapping CSV loads successfully either
completes all steps or surfaces exactly one of the two failure
messages. (As stated the claim fails twice: a `KeyError` that is not
the unmapped-class failure gets the missing-mapping message instead of
the formatted diagnostic, and a run whose CSV read fails surfaces
neither message — see the counterexample and claim C9.) -/
theorem c5_diagnostic_shape (env : Env) (cmap : ClassMap)
    (hl : loadClassMap env.csvRead = .ok cmap) :
    (∀ cr loc e, tryBody env cmap = (cr, .error (loc, e)) →
      isKeyError e = false →
      (runScript env).outcome =
        .failed (mkErrMsg loc e.typeName e.message) ∧
      strContains (mkErrMsg loc e.typeName e.message) loc ∧
      strContains (mkErrMsg loc e.typeName e.message) e.typeName ∧
      strContains (mkErrMsg loc e.typeName e.message) e.message) ∧
    ((runScript env).outcome = .success ∨
     (runScript env).outcome = .failed missingMsg ∨
     ∃ (loc : String) (e : PyExc), (runScript env).outcome =
       .failed (mkErrMsg loc e.typeName e.message)) := by
  constructor
  · intro cr loc e ht hke
    refine ⟨?_, mkErrMsg_contains loc e.typeName e.message⟩
    rw [runScript_eq_of_error env cmap cr loc e hl ht]
    simp [hke]
  · rcases ht : tryBody env cmap with ⟨cr, res⟩
    cases res with
    | ok t =>
      exact Or.inl (by rw [runScript_eq_of_ok env cmap cr t hl ht])
    | error le =>
      rcases le with ⟨loc, e⟩
      by_cases hke : isKeyError e
      · refine Or.inr (Or.inl ?_)
        rw [runScript_eq_of_error env cmap cr loc e hl ht]
        simp [hke]
      · refine Or.inr (Or.inr ⟨loc, e, ?_⟩)
        rw [runScript_eq_of_error env cmap cr loc e hl ht]
        simp [hke]

/-- Environment whose CSV read raises an operating-system error. -/
def envC5x : Env :=
  ⟨.error ⟨"OSError", "could not open mapping file"⟩, none, none,
   .ok [], none, [], fun _ _ => 0, none, none, [], [], none, none,
   "20210908"⟩

/-- Claim C5, counterexample: a run whose CSV read fails neither
completes the steps nor surfaces either failure message — the
exception escapes unhandled, so the claim's "every run" disjunction is
false at this input. -/
theorem c5_counterexample :
    (runScript envC5x).outcome =
      .unhandled ⟨"OSError", "could not open mapping file"⟩ ∧
    (runScript envC5x).outcome ≠ .success ∧
    (runScript envC5x).outcome ≠ .failed missingMsg ∧
    (runScript envC5x).created = [] ∧
    (runScript envC5x).finalTable = none := by
  exact ⟨rfl, by decide, by decide, rfl, rfl⟩

/-- Environment whose raster clip call raises an arcpy execute error. -/
def envC5w : Env :=
  ⟨.ok [["41", "Forest"]], none,
   some ⟨"ExecuteError", "ERROR 000020: service unavailable"⟩,
   .ok [], none, [], fun _ _ => 0, none, none, [], [], none, none,
   "20210908"⟩

/-- Claim C5, witness: the clip failure of the concrete run is reported
through the formatted diagnostic. -/
theorem c5_witness :
    (runScript envC5w).outcome =
      .failed (mkErrMsg locClip "ExecuteError"
        "ERROR 000020: service unavailable") :=
  ((c5_diagnostic_shape envC5w [("41", "Forest")] rfl).1 []
    locClip ⟨"ExecuteError", "ERROR 000020: service unavailable"⟩
    rfl rfl).1

/-- Claim C6: for every watershed in the input polygon set, a
successful run's final statistics output contains at least one row for
that watershed, and a watershed intersecting no land-cover polygon
appears with zero area and zero percent — the keep-all policy of the
summarize step (modelled from the spec, section 4.6). -/
theorem c6_keep_all_rows (env : Env) (cmap : ClassMap)
    (labels : List String) (rpolys : List LCPoly) (base : String)
    (hl : loadClassMap env.csvRead = .ok cmap)
    (hb : env.bufferExc = none) (hc : env.clipExc = none)
    (hr : env.r2p = .ok labels) (ha : env.addFieldExc = none)
    (hm : remapAll cmap (labels.map fun c => LCPoly.mk c "") = .ok rpolys)
    (hs : env.summarizeExc = none) (hj : env.addJoinExc = none)
    (hd : env.describeRec.lookup "baseName" = some base)
    (hf : env.fc2fcExc = none) (hdel : env.deleteFieldExc = none) :
    ∃ tbl, (runScript env).finalTable = some tbl ∧
      ∀ w ∈ env.wsheds, ∃ row ∈ tbl.rows, row.joinId = w ∧
        ((∀ i, env.inter w i = 0) → row.area = 0 ∧ row.percent = 0) := by
  have ht := tryBody_success env cmap labels rpolys base
    hb hc hr ha hm hs hj hd hf hdel
  have hrun := runScript_eq_of_ok env cmap _ _ hl ht
  refine ⟨_, by rw [hrun], ?_⟩
  intro w hw
  exact summarize_keep_all env.inter env.wsheds rpolys w hw

/-- Environment with two watersheds, the second of which overlaps no
land-cover polygon. -/
def envC6 : Env :=
  ⟨.ok [["41", "Forest"]], none, none, .ok ["41"], none, [1, 2],
   fun w _ => if w = 1 then (9 : ℚ) else 0, none, none,
   [("baseName", "Sub1")], ["NewClass", "Join_ID"], none, none,
   "20210908"⟩

/-- Claim C6, witness: the concrete two-watershed run. -/
theorem c6_witness :
    ∃ tbl, (runScript envC6).finalTable = some tbl ∧
      ∀ w ∈ envC6.wsheds, ∃ row ∈ tbl.rows, row.joinId = w ∧
        ((∀ i, envC6.inter w i = 0) → row.area = 0 ∧ row.percent = 0) :=
  c6_keep_all_rows envC6 [("41", "Forest")] ["41"]
    [LCPoly.mk "41" "Forest"] "Sub1" rfl rfl rfl rfl rfl rfl rfl rfl
    rfl rfl rfl

/-- Claim C7: the final output table's name is deterministically
`Watershed_<basename>_Statistics_<YYYYMMDD run date>`, and for the
watershed dataset `Sub1` run on 2021-09-08 it equals
`Watershed_Sub1_Statistics_20210908`. -/
theorem c7_output_table_name (env : Env) (cmap : ClassMap)
    (labels : List String) (rpolys : List LCPoly) (base : String)
    (hl : loadClassMap env.csvRead = .ok cmap)
    (hb : env.bufferExc = none) (hc : env.clipExc = none)
    (hr : env.r2p = .ok labels) (ha : env.addFieldExc = none)
    (hm : remapAll cmap (labels.map fun c => LCPoly.mk c "") = .ok rpolys)
    (hs : env.summarizeExc = none) (hj : env.addJoinExc = none)
    (hd : env.describeRec.lookup "baseName" = some base)
    (hf : env.fc2fcExc = none) (hdel : env.deleteFieldExc = none) :
    (∃ tbl, (runScript env).finalTable = some tbl ∧
      tbl.name = finalName base env.runDate) ∧
    fmtYYYYMMDD 2021 9 8 = "20210908" ∧
    finalName "Sub1" (fmtYYYYMMDD 2021 9 8) =
      "Watershed_Sub1_Statistics_20210908" := by
  have ht := tryBody_success env cmap labels rpolys base
    hb hc hr ha hm hs hj hd hf hdel
  have hrun := runScript_eq_of_ok env cmap _ _ hl ht
  exact ⟨⟨_, by rw [hrun], rfl⟩, rfl, rfl⟩

/-- Environment named `Sub1`, run on 2021-09-08. -/
def envC7 : Env :=
  ⟨.ok [["41", "Forest"]], none, none, .ok ["41"], none, [1],
   fun _ _ => 1, none, none, [("baseName", "Sub1")], [], none, none,
   fmtYYYYMMDD 2021 9 8⟩

/-- Claim C7, witness: the concrete run materializes the table under
the dated deterministic name. -/
theorem c7_witness :
    ∃ tbl, (runScript envC7).finalTable = some tbl ∧
      tbl.name = finalName "Sub1" envC7.runDate :=
  (c7_output_table_name envC7 [("41", "Forest")] ["41"]
    [LCPoly.mk "41" "Forest"] "Sub1" rfl rfl rfl rfl rfl rfl rfl rfl
    rfl rfl rfl).1

/-- Claim C8: after every successful run the final output table
contains none of the dropped bookkeeping columns — the `DeleteField`
drop list, which covers the duplicate square-feet area fields, the
polygon-count fields and the join-id fields. -/
theorem c8_dropped_fields_absent (env : Env) (tbl : FinalTable)
    (h : (runScript env).finalTable = some tbl) :
    ∀ f ∈ dropFields, f ∉ tbl.fields := by
  obtain ⟨cmap, cr, -, ht⟩ := runScript_finalTable_some env tbl h
  have hfld := tryBody_ok_fields env cmap cr tbl ht
  intro f hfd hmem
  rw [hfld] at hmem
  have h2 := (List.mem_filter.mp hmem).2
  simp at h2
  exact h2 hfd

/-- Environment whose joined table still carries bookkeeping fields. -/
def envC8 : Env :=
  ⟨.ok [["41", "Forest"]], none, none, .ok ["41"], none, [1],
   fun _ _ => 1, none, none, [("baseName", "Sub1")],
   ["Shape_Area", "Join_ID", "NewClass", "sum_Area_SQUAREFEET"],
   none, none, "20210908"⟩

/-- The final table the run over `envC8` materializes. -/
def tblC8 : FinalTable :=
  ⟨finalName "Sub1" envC8.runDate,
   summarizeGroups envC8.inter envC8.wsheds [LCPoly.mk "41" "Forest"],
   envC8.joinedFields.filter fun f => decide (f ∉ dropFields)⟩

/-- Claim C8, witness: in the concrete successful run the `Join_ID`
bookkeeping column is gone from the final table. -/
theorem c8_witness : "Join_ID" ∉ tblC8.fields :=
  c8_dropped_fields_absent envC8 tblC8
    (by rw [runScript_eq_of_ok envC8 [("41", "Forest")] _ tblC8 rfl
        (tryBody_success envC8 [("41", "Forest")] ["41"]
          [LCPoly.mk "41" "Forest"] "Sub1" rfl rfl rfl rfl rfl rfl rfl
          rfl rfl rfl)])
    "Join_ID" (by decide)

end LandCoverWshed
